import Mathlib

/-
Shallow embedding of the network controller of sihuan/netmaker
(src/controllers/networkHttpController.go) and of the key-value store layer
(src/unnamed/part_000, package database), together with theorems settling the
frozen claims about the natural-language specification of that code.

External collaborators (the mongo driver, servercfg, the functions package,
json/base64 serialization) are modelled as explicit environment records of
functions, so every operation of the controller becomes a pure Lean function
of its inputs and its environment.  Persistence side effects are reified as an
explicit trace of DbEffect values returned alongside the result.
-/

set_option autoImplicit false

namespace Netmaker

/-- Constant from networkHttpController.go line 24. -/
def ALL_NETWORK_ACCESS : String := "THIS_USER_HAS_ALL"

/-- Constant from networkHttpController.go line 25. -/
def NO_NETWORKS_PRESENT : String := "THIS_USER_HAS_NONE"

/-- The models.AccessKey record as used by the controller: name, secret value,
use count and the derived opaque access string. -/
structure AccessKey where
  name : String
  value : String
  uses : Int
  accessString : String
deriving DecidableEq

/-- The models.Network configuration aggregate, with the fields the controller
reads and writes.  Go pointer-booleans (IsLocal, IsDualStack, AllowManualSignUp,
DefaultSaveConfig) become Option Bool; numeric fields and unix timestamps
become Int; the access-key list keeps its order. -/
structure Network where
  netID : String
  addressRange : String
  addressRange6 : String
  displayName : String
  defaultListenPort : Int
  defaultPostUp : String
  defaultPostDown : String
  defaultKeepalive : Int
  defaultSaveConfig : Option Bool
  defaultInterface : String
  nodesLastModified : Int
  networkLastModified : Int
  keyUpdateTimeStamp : Int
  allowManualSignUp : Option Bool
  localRange : String
  isLocal : Option Bool
  isDualStack : Option Bool
  defaultCheckInInterval : Int
  nodeLimit : Int
  accessKeys : List AccessKey
deriving DecidableEq

/-- The models.NetworkUpdate partial-update payload: the fields the update
handlers read.  Absent JSON fields decode to the Go zero value, so an absent
string is "", an absent number is 0 and an absent pointer-boolean is none. -/
structure NetworkUpdate where
  netID : String
  addressRange : String
  addressRange6 : String
  localRange : String
  displayName : String
  defaultListenPort : Int
  defaultPostUp : String
  defaultPostDown : String
  defaultInterface : String
  defaultKeepalive : Int
  defaultCheckInInterval : Int
  nodeLimit : Int
  isLocal : Option Bool
  isDualStack : Option Bool
  allowManualSignUp : Option Bool
deriving DecidableEq

/-- A network record whose every field is the Go zero value. -/
def blankNetwork : Network :=
  { netID := "", addressRange := "", addressRange6 := "", displayName := ""
    defaultListenPort := 0, defaultPostUp := "", defaultPostDown := ""
    defaultKeepalive := 0, defaultSaveConfig := none, defaultInterface := ""
    nodesLastModified := 0, networkLastModified := 0, keyUpdateTimeStamp := 0
    allowManualSignUp := none, localRange := "", isLocal := none
    isDualStack := none, defaultCheckInInterval := 0, nodeLimit := 0
    accessKeys := [] }

/-- An update payload whose every field is the Go zero value, i.e. a JSON body
that mentions no field at all. -/
def blankUpdate : NetworkUpdate :=
  { netID := "", addressRange := "", addressRange6 := "", localRange := ""
    displayName := "", defaultListenPort := 0, defaultPostUp := ""
    defaultPostDown := "", defaultInterface := "", defaultKeepalive := 0
    defaultCheckInInterval := 0, nodeLimit := 0, isLocal := none
    isDualStack := none, allowManualSignUp := none }

/-- Reified persistence and cascade side effects of the controller, in the
order they are issued. -/
inductive DbEffect where
  | persist (netid : String) (doc : Network)
  | reassignAddresses (netid : String)
  | reassignLocalAddresses (netid : String)
  | deleteNetwork (netid : String)
  | persistNodeLimit (netid : String) (limit : Int)
  | persistKeys (netid : String) (keys : List AccessKey)
deriving DecidableEq

/-- External collaborators of SecurityCheck: the configured master key
(servercfg.GetMasterKey), the network-existence lookup
(functions.NetworkExists) and the user-token resolver
(functions.VerifyUserToken, returning username, granted networks and the
admin flag). -/
structure AuthEnv where
  masterKey : String
  networkExists : String → Except String Bool
  verifyUserToken : String → Except String (String × List String × Bool)

/-- networkHttpController.go lines 119-124: the token authenticates as master
exactly when it equals the configured master key. -/
def authenticateMaster (env : AuthEnv) (tokenString : String) : Bool :=
  tokenString == env.masterKey

/-- Splitting a character list at every space, keeping empty chunks, as the Go
strings.Split with separator " " does. -/
def splitChars : List Char → List (List Char)
  | [] => [[]]
  | c :: rest =>
    match splitChars rest with
    | [] => [[]]
    | w :: ws => if c = ' ' then [] :: w :: ws else (c :: w) :: ws

/-- Go strings.Split(s, " "): the substrings of s between consecutive spaces.
Agrees with String.splitOn applied to a single space, but is structurally
recursive so that concrete instances reduce in the kernel. -/
def stringsSplitSpace (s : String) : List String :=
  (splitChars s.data).map (fun cs => String.mk cs)

/-- networkHttpController.go lines 73-116: the authorization gate.  Returns
either an error or the pair (authorized network list, username). -/
def SecurityCheck (env : AuthEnv) (reqAdmin : Bool) (netname token : String) :
    Except String (List String × String) :=
  match env.networkExists netname with
  | Except.error err => Except.error err
  | Except.ok networkexists =>
    if netname != "" && !networkexists then
      Except.error "This network does not exist"
    else
      let tokenSplit := stringsSplitSpace token
      let hasBearer := decide (2 ≤ tokenSplit.length)
      let authToken := if tokenSplit.length < 2 then "" else tokenSplit.getD 1 ""
      let isMasterAuthenticated := authenticateMaster env authToken
      if !hasBearer || !isMasterAuthenticated then
        match env.verifyUserToken authToken with
        | Except.error _ => Except.error "Error verifying user token"
        | Except.ok (userName, networks, isadmin) =>
          if !isadmin && reqAdmin then
            Except.error "You are unauthorized to access this endpoint"
          else
            let userNetworks := if isadmin then [ALL_NETWORK_ACCESS] else networks
            let userNetworks :=
              if userNetworks.length = 0 then [NO_NETWORKS_PRESENT] else userNetworks
            Except.ok (userNetworks, userName)
      else
        Except.ok ([ALL_NETWORK_ACCESS], "")

/-- Result of the merge section of UpdateNetwork: the merged record together
with the three change flags of networkHttpController.go lines 450-452. -/
structure MergeOut where
  network : Network
  haschange : Bool
  hasrangeupdate : Bool
  haslocalrangeupdate : Bool
deriving DecidableEq

/-- networkHttpController.go lines 450-509, the merge section of
UpdateNetwork.  Each conditional block of the source overwrites one distinct
field of the record when the corresponding patch field is non-zero, so the
sequence of blocks is rendered as one parallel record update, one if-term per
source block; the IsLocal and IsDualStack blocks (lines 464-469) set no flag.
The haschange flag is the disjunction of exactly the conditions whose source
block assigns haschange = true, hasrangeupdate is set only by the
AddressRange block (line 454) and haslocalrangeupdate only by the LocalRange
block (line 459).  When haschange is set, SetNetworkLastModified stamps the
record with the current time (line 508), passed here as the parameter now.
The AddressRange6 field of the patch is never consulted and the field of the
record is never written by UpdateNetwork. -/
def mergeNetworkChange (c : NetworkUpdate) (network : Network) (now : Int) :
    MergeOut :=
  let haschange :=
    c.addressRange != "" || c.localRange != "" || c.defaultListenPort != 0 ||
    c.defaultPostDown != "" || c.defaultInterface != "" || c.defaultPostUp != "" ||
    c.defaultKeepalive != 0 || c.displayName != "" ||
    c.defaultCheckInInterval != 0 || c.allowManualSignUp.isSome
  let merged : Network :=
    { network with
      addressRange :=
        if c.addressRange != "" then c.addressRange else network.addressRange
      localRange :=
        if c.localRange != "" then c.localRange else network.localRange
      isLocal := if c.isLocal.isSome then c.isLocal else network.isLocal
      isDualStack :=
        if c.isDualStack.isSome then c.isDualStack else network.isDualStack
      defaultListenPort :=
        if c.defaultListenPort != 0 then c.defaultListenPort
        else network.defaultListenPort
      defaultPostDown :=
        if c.defaultPostDown != "" then c.defaultPostDown
        else network.defaultPostDown
      defaultInterface :=
        if c.defaultInterface != "" then c.defaultInterface
        else network.defaultInterface
      defaultPostUp :=
        if c.defaultPostUp != "" then c.defaultPostUp else network.defaultPostUp
      defaultKeepalive :=
        if c.defaultKeepalive != 0 then c.defaultKeepalive
        else network.defaultKeepalive
      displayName :=
        if c.displayName != "" then c.displayName else network.displayName
      defaultCheckInInterval :=
        if c.defaultCheckInInterval != 0 then c.defaultCheckInInterval
        else network.defaultCheckInInterval
      allowManualSignUp :=
        if c.allowManualSignUp.isSome then c.allowManualSignUp
        else network.allowManualSignUp
      networkLastModified :=
        if haschange then now else network.networkLastModified }
  ⟨merged, haschange, c.addressRange != "", c.localRange != ""⟩

/-- External collaborators of UpdateNetwork: the mongo FindOneAndUpdate write,
the two cascade calls (functions.UpdateNetworkNodeAddresses and
functions.UpdateNetworkLocalAddresses) and the final re-read
(functions.GetParentNetwork). -/
structure UpdateEnv where
  persistNetwork : String → Network → Except String Network
  reassignAddresses : String → Except String Unit
  reassignLocalAddresses : String → Except String Unit
  getParentNetwork : String → Except String Network

/-- networkHttpController.go lines 443-558: UpdateNetwork.  Rejects a patch
whose netID differs from the current record (lines 446-448) before touching
the store, otherwise merges, persists the merged record, runs the cascades
gated on the two range flags (lines 541-552) and re-reads the record.  The
second component is the trace of persistence and cascade calls issued. -/
def UpdateNetwork (env : UpdateEnv) (networkChange : NetworkUpdate)
    (network : Network) (now : Int) : Except String Network × List DbEffect :=
  if networkChange.netID != network.netID then
    (Except.error "NetID is not editable", [])
  else
    let m := mergeNetworkChange networkChange network now
    let effs := [DbEffect.persist m.network.netID m.network]
    match env.persistNetwork m.network.netID m.network with
    | Except.error e => (Except.error e, effs)
    | Except.ok _ =>
      let rangeStep : Except String Unit × List DbEffect :=
        if m.hasrangeupdate then
          (env.reassignAddresses m.network.netID,
           [DbEffect.reassignAddresses m.network.netID])
        else (Except.ok (), [])
      match rangeStep with
      | (Except.error e, es) => (Except.error e, effs ++ es)
      | (Except.ok _, es) =>
        let localStep : Except String Unit × List DbEffect :=
          if m.haslocalrangeupdate then
            (env.reassignLocalAddresses m.network.netID,
             [DbEffect.reassignLocalAddresses m.network.netID])
          else (Except.ok (), [])
        match localStep with
        | (Except.error e2, es2) => (Except.error e2, effs ++ es ++ es2)
        | (Except.ok _, es2) =>
          match env.getParentNetwork m.network.netID with
          | Except.error e3 => (Except.error e3, effs ++ es ++ es2)
          | Except.ok returnnetwork => (Except.ok returnnetwork, effs ++ es ++ es2)

/-- networkHttpController.go lines 406-441, the stored-record semantics of the
updateNetworkNodeLimit handler: when the patch carries a non-zero NodeLimit
the mongo update sets exactly the nodelimit field of the stored record (lines
425-431); when the patch NodeLimit is zero no database call is made at all.
Returns the stored record after the operation and the trace of writes. -/
def updateNetworkNodeLimit (networkChange : NetworkUpdate) (network : Network) :
    Network × List DbEffect :=
  if networkChange.nodeLimit != 0 then
    ({ network with nodeLimit := networkChange.nodeLimit },
     [DbEffect.persistNodeLimit network.netID networkChange.nodeLimit])
  else (network, [])

/-- External collaborators of DeleteNetwork: the dependent-node counter
(functions.GetNetworkNodeNumber) and the mongo DeleteOne call, returning the
deleted count. -/
structure DeleteEnv where
  getNetworkNodeNumber : String → Except String Int
  deleteOne : String → Except String Int

/-- networkHttpController.go lines 583-608: DeleteNetwork.  A failing node
count propagates; a positive count is the node-check conflict and the delete
is never issued; otherwise DeleteOne runs.  The second component is the trace
of store mutations issued. -/
def DeleteNetwork (env : DeleteEnv) (network : String) :
    Except String Int × List DbEffect :=
  match env.getNetworkNodeNumber network with
  | Except.error e => (Except.error e, [])
  | Except.ok nodecount =>
    if nodecount > 0 then
      (Except.error "Node check failed. All nodes must be deleted before deleting network",
       [])
    else
      match env.deleteOne network with
      | Except.error e => (Except.error e, [DbEffect.deleteNetwork network])
      | Except.ok deletedCount =>
        (Except.ok deletedCount, [DbEffect.deleteNetwork network])

/-- Modelled from the spec: the models.AccessToken payload (its definition is
not under src/).  The spec describes it as the serialization of the server
connection info, the transport-tunnel (WireGuard) connection info, the target
network identifier, the secret value, and the private range when the network
is local; the two connection-info sections are opaque to the controller and
are carried here as single strings. -/
structure AccessToken where
  serverConfig : String
  wg : String
  network : String
  key : String
  localRange : String
deriving DecidableEq

/-- External collaborators of CreateAccessKey: the name and secret generators
(functions.GenKeyName, functions.GenKey), the key-list read (GetKeys backed by
mongo), the server and WireGuard configuration payloads (servercfg), JSON
marshalling, base64 encoding, the validator run on the finished key, and the
mongo write replacing the whole key list. -/
structure KeyEnv where
  genKeyName : String
  genKey : String
  getKeys : String → Except String (List AccessKey)
  serverInfo : String
  wgInfo : String
  marshal : AccessToken → Except String String
  base64Encode : String → String
  validateKey : AccessKey → Option String
  persistKeys : String → List AccessKey → Except String Unit

/-- networkHttpController.go lines 701-795: CreateAccessKey.  Defaults the
name, value and uses fields, loads the existing keys of the network, rejects a
duplicate name before any write, builds the opaque access string, validates,
then appends the key and persists the whole key list.  The second component is
the trace of store mutations issued. -/
def CreateAccessKey (env : KeyEnv) (accesskey0 : AccessKey) (network : Network) :
    Except String AccessKey × List DbEffect :=
  let k1 := if accesskey0.name == "" then
    { accesskey0 with name := env.genKeyName } else accesskey0
  let k2 := if k1.value == "" then { k1 with value := env.genKey } else k1
  let k3 := if k2.uses == 0 then { k2 with uses := 1 } else k2
  match env.getKeys network.netID with
  | Except.error _ => (Except.error "could not retrieve network keys", [])
  | Except.ok checkkeys =>
    if checkkeys.any (fun key => key.name == k3.name) then
      (Except.error "Duplicate AccessKey Name", [])
    else
      let privAddr := match network.isLocal with
        | some true => network.localRange
        | _ => ""
      let accessToken : AccessToken :=
        { serverConfig := env.serverInfo, wg := env.wgInfo
          network := network.netID, key := k3.value, localRange := privAddr }
      match env.marshal accessToken with
      | Except.error e => (Except.error e, [])
      | Except.ok tokenjson =>
        let k4 := { k3 with accessString := env.base64Encode tokenjson }
        match env.validateKey k4 with
        | some e => (Except.error e, [])
        | none =>
          let newkeys := network.accessKeys ++ [k4]
          match env.persistKeys network.netID newkeys with
          | Except.error e =>
            (Except.error e, [DbEffect.persistKeys network.netID newkeys])
          | Except.ok _ =>
            (Except.ok k4, [DbEffect.persistKeys network.netID newkeys])

/-- The loop of networkHttpController.go lines 160-164: scans the list keeping
in index the position of the most recent element whose NetID is comms; ind is
the running position, index the accumulator initialized to the sentinel. -/
def commsIndexLoop : List Network → Nat → Nat → Nat
  | [], _, index => index
  | net :: rest, ind, index =>
    commsIndexLoop rest (ind + 1) (if net.netID == "comms" then ind else index)

/-- networkHttpController.go lines 158-171: RemoveComms.  The sentinel
100000001 means no comms network was found; otherwise the element at the
recorded index is spliced out. -/
def RemoveComms (networks : List Network) : List Network :=
  let index := commsIndexLoop networks 0 100000001
  if index == 100000001 then networks
  else networks.take index ++ networks.drop (index + 1)

/-- The Go map insertion used while building the result of FetchRecords:
overwrite the value when the key is present, append otherwise. -/
def mapInsert (records : List (String × String)) (key value : String) :
    List (String × String) :=
  if records.any (fun kv => kv.1 == key) then
    records.map (fun kv => if kv.1 == key then (kv.1, value) else kv)
  else records ++ [(key, value)]

/-- src/unnamed/part_000 lines 86-100: FetchRecords on a successful query.
The table rows (key ordered, keys unique by the PRIMARY KEY constraint) are
folded into a Go map; the query-error path simply propagates the driver error
and is not the subject of any claim. -/
def FetchRecords (rows : List (String × String)) : List (String × String) :=
  rows.foldl (fun records kv => mapInsert records kv.1 kv.2) []

/-- Go map indexing: a missing key yields the zero value "". -/
def mapGet (records : List (String × String)) (key : String) : String :=
  match records.lookup key with
  | some v => v
  | none => ""

/-- src/unnamed/part_000 lines 78-84: FetchRecord returns results[key] with a
nil error once FetchRecords succeeds; a missing key therefore yields the Go
zero value "" with success. -/
def FetchRecord (rows : List (String × String)) (key : String) :
    Except String String :=
  Except.ok (mapGet (FetchRecords rows) key)

/-- Concrete environment whose master key is "m", where every network exists
and where every user token resolves to a non-admin user. -/
def opAuthEnv : AuthEnv :=
  { masterKey := "m"
    networkExists := fun _ => Except.ok true
    verifyUserToken := fun _ => Except.ok ("bob", ["net1"], false) }

/-- Concrete environment where no network exists. -/
def ghostAuthEnv : AuthEnv :=
  { masterKey := "mastersecret"
    networkExists := fun _ => Except.ok false
    verifyUserToken := fun _ => Except.ok ("bob", ["net1"], true) }

/-- A network with both an IPv4 and an IPv6 range. -/
def rangeNet : Network :=
  { blankNetwork with
    netID := "net1"
    addressRange := "10.0.0.0/24"
    addressRange6 := "dead:beef::/64" }

/-- A patch whose addressRange equals the current range of rangeNet. -/
def rangePatchSame : NetworkUpdate :=
  { blankUpdate with
    netID := "net1"
    addressRange := "10.0.0.0/24" }

/-- A patch changing only the IPv6 range of rangeNet. -/
def rangePatch6 : NetworkUpdate :=
  { blankUpdate with
    netID := "net1"
    addressRange6 := "feed::/64" }

/-- An update environment in which every external call succeeds. -/
def immutEnv : UpdateEnv :=
  { persistNetwork := fun _ n => Except.ok n
    reassignAddresses := fun _ => Except.ok ()
    reassignLocalAddresses := fun _ => Except.ok ()
    getParentNetwork := fun _ => Except.ok blankNetwork }

/-- A patch naming a different netID than net1Blank. -/
def otherPatch : NetworkUpdate := { blankUpdate with netID := "other" }

/-- A blank network named net1. -/
def net1Blank : Network := { blankNetwork with netID := "net1" }

/-- A delete environment reporting three dependent nodes. -/
def busyDeleteEnv : DeleteEnv :=
  { getNetworkNodeNumber := fun _ => Except.ok 3
    deleteOne := fun _ => Except.ok 1 }

/-- A network with several non-zero fields, used to observe that a zero patch
changes nothing. -/
def quietNet : Network :=
  { blankNetwork with
    netID := "net1"
    addressRange := "10.0.0.0/24"
    displayName := "quiet"
    networkLastModified := 42 }

/-- A patch carrying only the netID of quietNet. -/
def quietPatch : NetworkUpdate := { blankUpdate with netID := "net1" }

/-- A network whose node limit is 5. -/
def limitNet : Network := { blankNetwork with netID := "net1", nodeLimit := 5 }

/-- A patch whose nodeLimit field is the zero value. -/
def limitZeroPatch : NetworkUpdate := { blankUpdate with nodeLimit := 0 }

/-- A patch setting the node limit to 9. -/
def limitNinePatch : NetworkUpdate := { blankUpdate with nodeLimit := 9 }

/-- A key environment whose store already holds one key named alpha. -/
def dupKeyEnv : KeyEnv :=
  { genKeyName := "gen"
    genKey := "secret"
    getKeys := fun _ => Except.ok [⟨"alpha", "v", 1, "s"⟩]
    serverInfo := "srv"
    wgInfo := "wg"
    marshal := fun t => Except.ok t.network
    base64Encode := fun s => s
    validateKey := fun _ => none
    persistKeys := fun _ _ => Except.ok () }

/-- An issuance request reusing the existing key name alpha. -/
def dupKeyReq : AccessKey := ⟨"alpha", "", 0, ""⟩

/-- The reserved network record. -/
def commsNetwork : Network := { blankNetwork with netID := "comms" }

/-- A list whose single comms element sits exactly at the sentinel position
100000001 of RemoveComms. -/
def bigList : List Network :=
  List.replicate 100000001 blankNetwork ++ [commsNetwork]

/-- A network named alpha. -/
def plainA : Network := { blankNetwork with netID := "alpha" }

/-- A network named beta. -/
def plainB : Network := { blankNetwork with netID := "beta" }

/-- A lookup over an association list none of whose keys is the requested one
returns none. -/
theorem lookup_eq_none_of_keys_ne {l : List (String × String)} {key : String}
    (h : ∀ kv ∈ l, kv.1 ≠ key) : l.lookup key = none := by
  induction l with
  | nil => rfl
  | cons kv rest ih =>
    obtain ⟨k, v⟩ := kv
    have hk : (key == k) = false :=
      beq_eq_false_iff_ne.2 (Ne.symm (h (k, v) (List.mem_cons_self (k, v) rest)))
    rw [List.lookup_cons, hk]
    exact ih (fun x hx => h x (List.mem_cons_of_mem (k, v) hx))

/-- mapInsert introduces no key other than the inserted one. -/
theorem mapInsert_keys_ne {l : List (String × String)} {key k v : String}
    (hl : ∀ kv ∈ l, kv.1 ≠ key) (hk : k ≠ key) :
    ∀ kv ∈ mapInsert l k v, kv.1 ≠ key := by
  intro kv hkv
  unfold mapInsert at hkv
  split at hkv
  · obtain ⟨kv0, hkv0, hmap⟩ := List.mem_map.1 hkv
    by_cases hc : (kv0.1 == k) = true
    · rw [if_pos hc] at hmap
      rw [← hmap]
      exact hl kv0 hkv0
    · rw [if_neg hc] at hmap
      rw [← hmap]
      exact hl kv0 hkv0
  · rcases List.mem_append.1 hkv with h1 | h2
    · exact hl kv h1
    · have hkv2 : kv = (k, v) := by simpa using h2
      rw [hkv2]
      exact hk

/-- The map built by the FetchRecords fold contains no key outside the rows
and the starting accumulator. -/
theorem fetchRecords_keys_ne (rows : List (String × String))
    (acc : List (String × String)) (key : String)
    (hacc : ∀ kv ∈ acc, kv.1 ≠ key) (hrows : ∀ kv ∈ rows, kv.1 ≠ key) :
    ∀ kv ∈ rows.foldl (fun records kv => mapInsert records kv.1 kv.2) acc,
      kv.1 ≠ key := by
  induction rows generalizing acc with
  | nil => exact hacc
  | cons r rest ih =>
    intro kv hkv
    exact ih (mapInsert acc r.1 r.2)
      (mapInsert_keys_ne hacc (hrows r (List.mem_cons_self r rest)))
      (fun x hx => hrows x (List.mem_cons_of_mem r hx)) kv hkv

/-- Scanning elements none of which is named comms leaves the index
accumulator untouched. -/
theorem commsIndexLoop_no_comms (xs : List Network) (k s : Nat)
    (h : ∀ x ∈ xs, x.netID ≠ "comms") : commsIndexLoop xs k s = s := by
  induction xs generalizing k s with
  | nil => rfl
  | cons x rest ih =>
    have hx : (x.netID == "comms") = false :=
      beq_eq_false_iff_ne.2 (h x (List.mem_cons_self x rest))
    unfold commsIndexLoop
    rw [hx]
    simp only [Bool.false_eq_true, if_false]
    exact ih (k + 1) s (fun y hy => h y (List.mem_cons_of_mem x hy))

/-- The comms scan over an appended list runs the second part with the
position counter advanced and the accumulator produced by the first part. -/
theorem commsIndexLoop_append (xs ys : List Network) (k s : Nat) :
    commsIndexLoop (xs ++ ys) k s =
      commsIndexLoop ys (k + xs.length) (commsIndexLoop xs k s) := by
  induction xs generalizing k s with
  | nil => simp [commsIndexLoop]
  | cons x rest ih =>
    simp only [List.cons_append, commsIndexLoop, List.length_cons, List.append_eq]
    rw [ih]
    congr 1
    omega

/-- When the suffix after a comms element holds no further comms element, the
scan returns the position of that element. -/
theorem commsIndexLoop_last (l₁ l₂ : List Network) (c : Network) (s : Nat)
    (hc : c.netID = "comms") (h₂ : ∀ x ∈ l₂, x.netID ≠ "comms") :
    commsIndexLoop (l₁ ++ c :: l₂) 0 s = l₁.length := by
  rw [commsIndexLoop_append]
  have hcb : (c.netID == "comms") = true := beq_iff_eq.2 hc
  simp only [commsIndexLoop, hcb, if_true]
  rw [commsIndexLoop_no_comms l₂ _ _ h₂]
  omega

/-- Claim C1: for a well-formed bearer token against an existing target
network, a token equal to the configured master secret yields the
unrestricted ALL_NETWORK_ACCESS scope whatever the reqAdmin flag is, and a
token that is not the master secret and resolves to a non-admin user is
rejected as unauthorized when reqAdmin is set, with no network set granted. -/
theorem securityCheck_operator_scope (env : AuthEnv) (netname token : String)
    (hex : env.networkExists netname = Except.ok true)
    (hbear : 2 ≤ (stringsSplitSpace token).length) :
    ((stringsSplitSpace token).getD 1 "" = env.masterKey →
      ∀ reqAdmin, SecurityCheck env reqAdmin netname token =
        Except.ok ([ALL_NETWORK_ACCESS], "")) ∧
    ((stringsSplitSpace token).getD 1 "" ≠ env.masterKey →
      ∀ userName networks,
        env.verifyUserToken ((stringsSplitSpace token).getD 1 "") =
          Except.ok (userName, networks, false) →
        SecurityCheck env true netname token =
          Except.error "You are unauthorized to access this endpoint") := by
  have hlt : ¬ (stringsSplitSpace token).length < 2 := Nat.not_lt.2 hbear
  constructor
  · intro hm reqAdmin
    have hm2 : (stringsSplitSpace token)[1]?.getD "" = env.masterKey := by
      simpa using hm
    unfold SecurityCheck authenticateMaster
    rw [hex]
    simp [hlt, hbear, hm2]
  · intro hm userName networks hverify
    have hm2 : ¬ (stringsSplitSpace token)[1]?.getD "" = env.masterKey := by
      simpa using hm
    have hverify2 : env.verifyUserToken ((stringsSplitSpace token)[1]?.getD "") =
        Except.ok (userName, networks, false) := by
      simpa using hverify
    unfold SecurityCheck authenticateMaster
    rw [hex]
    simp [hlt, hm2, hverify2]

/-- Claim C1 witness: with master key "m", the token Bearer m obtains the
unrestricted scope. -/
theorem securityCheck_operator_scope_witness :
    SecurityCheck opAuthEnv false "net1" "Bearer m" =
      Except.ok ([ALL_NETWORK_ACCESS], "") :=
  (securityCheck_operator_scope opAuthEnv "net1" "Bearer m" rfl (by decide)).1
    rfl false

/-- Claim C2 counterexample: a patch whose addressRange equals the current
range still raises the hasrangeupdate flag although the merged ranges are
unchanged, and a patch changing only the IPv6 range does not raise it. -/
theorem updateNetwork_rangeflag_cex :
    ((mergeNetworkChange rangePatchSame rangeNet 5).hasrangeupdate = true ∧
     (mergeNetworkChange rangePatchSame rangeNet 5).network.addressRange =
       rangeNet.addressRange ∧
     (mergeNetworkChange rangePatchSame rangeNet 5).network.addressRange6 =
       rangeNet.addressRange6) ∧
    (rangePatch6.addressRange6 ≠ rangeNet.addressRange6 ∧
     rangePatch6.addressRange = "" ∧
     (mergeNetworkChange rangePatch6 rangeNet 5).hasrangeupdate = false) :=
  ⟨⟨rfl, rfl, rfl⟩, ⟨by decide, rfl, rfl⟩⟩

/-- Claim C2 as amended: the hasrangeupdate flag is raised exactly when the
patch carries a non-empty addressRange, whether or not it differs from the
current range, and the merged record always keeps the current IPv6 range
because UpdateNetwork never consults the addressRange6 field. -/
theorem updateNetwork_rangeflag_amended (c : NetworkUpdate) (n : Network)
    (now : Int) :
    ((mergeNetworkChange c n now).hasrangeupdate = true ↔ c.addressRange ≠ "") ∧
    (mergeNetworkChange c n now).network.addressRange6 = n.addressRange6 := by
  unfold mergeNetworkChange
  simp

/-- Claim C3: a patch whose netID differs from the current record makes
UpdateNetwork fail with the NetID validation error before issuing any store
operation. -/
theorem updateNetwork_netid_immutable (env : UpdateEnv) (c : NetworkUpdate)
    (n : Network) (now : Int) (h : c.netID ≠ n.netID) :
    UpdateNetwork env c n now = (Except.error "NetID is not editable", []) := by
  unfold UpdateNetwork
  simp [h]

/-- Claim C3 witness: renaming net1 to other is rejected with no persistence
call. -/
theorem updateNetwork_netid_immutable_witness :
    UpdateNetwork immutEnv otherPatch net1Blank 7 =
      (Except.error "NetID is not editable", []) :=
  updateNetwork_netid_immutable immutEnv otherPatch net1Blank 7 (by decide)

/-- Claim C4: with a positive dependent-node count DeleteNetwork fails with
the node-check conflict and never issues the delete, and with a zero count
the delete of the record is issued. -/
theorem deleteNetwork_conflict_guard (env : DeleteEnv) (net : String) (k : Int)
    (h : env.getNetworkNodeNumber net = Except.ok k) :
    (0 < k → DeleteNetwork env net =
      (Except.error "Node check failed. All nodes must be deleted before deleting network",
       [])) ∧
    (k = 0 → (DeleteNetwork env net).2 = [DbEffect.deleteNetwork net]) := by
  constructor
  · intro hk
    unfold DeleteNetwork
    rw [h]
    simp [hk]
  · intro hk
    subst hk
    unfold DeleteNetwork
    rw [h]
    simp
    cases env.deleteOne net <;> simp

/-- Claim C4 witness: three dependent nodes block the deletion and no store
mutation is issued. -/
theorem deleteNetwork_conflict_guard_witness :
    DeleteNetwork busyDeleteEnv "net1" =
      (Except.error "Node check failed. All nodes must be deleted before deleting network",
       []) :=
  (deleteNetwork_conflict_guard busyDeleteEnv "net1" 3 rfl).1 (by decide)

/-- Claim C5: when the non-empty target network does not exist, SecurityCheck
answers the not-found error for every credential and every reqAdmin flag, so
the outcome is independent of the credential supplied. -/
theorem securityCheck_network_notfound (env : AuthEnv) (netname : String)
    (hne : netname ≠ "") (hex : env.networkExists netname = Except.ok false) :
    ∀ reqAdmin token, SecurityCheck env reqAdmin netname token =
      Except.error "This network does not exist" := by
  intro reqAdmin token
  unfold SecurityCheck
  rw [hex]
  simp [hne]

/-- Claim C5 witness: even the master credential receives the not-found error
on a missing network. -/
theorem securityCheck_network_notfound_witness :
    SecurityCheck ghostAuthEnv true "ghost" "Bearer mastersecret" =
      Except.error "This network does not exist" :=
  securityCheck_network_notfound ghostAuthEnv "ghost" (by decide) rfl true
    "Bearer mastersecret"

/-- Claim C6: a patch all of whose fields are zero values, with the netID of
the current record, merges to the current record unchanged with no change
flag raised and no new networkLastModified stamp. -/
theorem mergeNetworkChange_zero_patch (c : NetworkUpdate) (n : Network)
    (now : Int)
    (h1 : c.addressRange = "") (h2 : c.addressRange6 = "") (h3 : c.localRange = "")
    (h4 : c.displayName = "") (h5 : c.defaultListenPort = 0)
    (h6 : c.defaultPostUp = "") (h7 : c.defaultPostDown = "")
    (h8 : c.defaultInterface = "") (h9 : c.defaultKeepalive = 0)
    (h10 : c.defaultCheckInInterval = 0) (h11 : c.nodeLimit = 0)
    (h12 : c.isLocal = none) (h13 : c.isDualStack = none)
    (h14 : c.allowManualSignUp = none) (h15 : c.netID = n.netID) :
    mergeNetworkChange c n now = ⟨n, false, false, false⟩ := by
  unfold mergeNetworkChange
  simp [h1, h3, h4, h5, h6, h7, h8, h9, h10, h12, h13, h14]

/-- Claim C6 witness: the empty patch leaves quietNet untouched, with its
timestamp 42 kept instead of the current time 99. -/
theorem mergeNetworkChange_zero_patch_witness :
    mergeNetworkChange quietPatch quietNet 99 = ⟨quietNet, false, false, false⟩ :=
  mergeNetworkChange_zero_patch quietPatch quietNet 99
    rfl rfl rfl rfl rfl rfl rfl rfl rfl rfl rfl rfl rfl rfl rfl

/-- Claim C7 counterexample: a zero node-limit patch is treated as no change,
not applied: the stored limit stays 5 and no write is issued. -/
theorem updateNodeLimit_zero_cex :
    limitZeroPatch.nodeLimit = 0 ∧ limitNet.nodeLimit = 5 ∧
    (updateNetworkNodeLimit limitZeroPatch limitNet).1.nodeLimit = 5 ∧
    (updateNetworkNodeLimit limitZeroPatch limitNet).2 = [] :=
  ⟨rfl, rfl, rfl, rfl⟩

/-- Claim C7 as amended: the node-limit update writes exactly the node-limit
field, leaving every other field of the record unchanged, and it keeps the
zero-means-unchanged convention: a zero patch performs no write at all while
a non-zero patch stores exactly that value. -/
theorem updateNodeLimit_single_field (c : NetworkUpdate) (n : Network) :
    ((updateNetworkNodeLimit c n).1.netID = n.netID ∧
     (updateNetworkNodeLimit c n).1.addressRange = n.addressRange ∧
     (updateNetworkNodeLimit c n).1.addressRange6 = n.addressRange6 ∧
     (updateNetworkNodeLimit c n).1.displayName = n.displayName ∧
     (updateNetworkNodeLimit c n).1.defaultListenPort = n.defaultListenPort ∧
     (updateNetworkNodeLimit c n).1.defaultPostUp = n.defaultPostUp ∧
     (updateNetworkNodeLimit c n).1.defaultPostDown = n.defaultPostDown ∧
     (updateNetworkNodeLimit c n).1.defaultKeepalive = n.defaultKeepalive ∧
     (updateNetworkNodeLimit c n).1.defaultSaveConfig = n.defaultSaveConfig ∧
     (updateNetworkNodeLimit c n).1.defaultInterface = n.defaultInterface ∧
     (updateNetworkNodeLimit c n).1.nodesLastModified = n.nodesLastModified ∧
     (updateNetworkNodeLimit c n).1.networkLastModified = n.networkLastModified ∧
     (updateNetworkNodeLimit c n).1.keyUpdateTimeStamp = n.keyUpdateTimeStamp ∧
     (updateNetworkNodeLimit c n).1.allowManualSignUp = n.allowManualSignUp ∧
     (updateNetworkNodeLimit c n).1.localRange = n.localRange ∧
     (updateNetworkNodeLimit c n).1.isLocal = n.isLocal ∧
     (updateNetworkNodeLimit c n).1.isDualStack = n.isDualStack ∧
     (updateNetworkNodeLimit c n).1.defaultCheckInInterval = n.defaultCheckInInterval ∧
     (updateNetworkNodeLimit c n).1.accessKeys = n.accessKeys) ∧
    (c.nodeLimit = 0 → updateNetworkNodeLimit c n = (n, [])) ∧
    (c.nodeLimit ≠ 0 →
      (updateNetworkNodeLimit c n).1.nodeLimit = c.nodeLimit ∧
      (updateNetworkNodeLimit c n).2 =
        [DbEffect.persistNodeLimit n.netID c.nodeLimit]) := by
  unfold updateNetworkNodeLimit
  by_cases h : c.nodeLimit = 0 <;> simp [h]

/-- Claim C7 amended witness: the patch with limit 9 stores exactly that
value on limitNet. -/
theorem updateNodeLimit_single_field_witness :
    (updateNetworkNodeLimit limitNinePatch limitNet).1.nodeLimit = 9 ∧
    (updateNetworkNodeLimit limitNinePatch limitNet).2 =
      [DbEffect.persistNodeLimit "net1" 9] :=
  (updateNodeLimit_single_field limitNinePatch limitNet).2.2 (by decide)

/-- Claim C8: an issuance request whose effective name, explicit or
generated, already names a key of the network is rejected with the duplicate
conflict before any persistence, leaving the key list untouched. -/
theorem createAccessKey_duplicate_name (env : KeyEnv) (accesskey : AccessKey)
    (network : Network) (ks : List AccessKey)
    (hks : env.getKeys network.netID = Except.ok ks)
    (hdup : (if accesskey.name = "" then env.genKeyName else accesskey.name) ∈
      ks.map AccessKey.name) :
    CreateAccessKey env accesskey network =
      (Except.error "Duplicate AccessKey Name", []) := by
  obtain ⟨k, hkmem, hkname⟩ := List.mem_map.1 hdup
  have hany : (ks.any (fun key =>
      key.name == (if accesskey.name = "" then env.genKeyName else accesskey.name))) = true :=
    List.any_eq_true.2 ⟨k, hkmem, beq_iff_eq.2 hkname⟩
  unfold CreateAccessKey
  rw [hks]
  simp [apply_ite AccessKey.name, hany]

/-- Claim C8 witness: requesting a second key named alpha is rejected with no
write. -/
theorem createAccessKey_duplicate_name_witness :
    CreateAccessKey dupKeyEnv dupKeyReq net1Blank =
      (Except.error "Duplicate AccessKey Name", []) :=
  createAccessKey_duplicate_name dupKeyEnv dupKeyReq net1Blank
    [⟨"alpha", "v", 1, "s"⟩] rfl (by decide)

/-- Claim C9 counterexample: fetching the absent key b from a table holding
only key a succeeds with the empty string instead of reporting a distinct
not-found outcome. -/
theorem fetchRecord_missing_key_cex :
    "b" ∉ [("a", "1")].map Prod.fst ∧
    FetchRecord [("a", "1")] "b" = Except.ok "" :=
  ⟨by decide, rfl⟩

/-- Claim C9 as amended: for every table and every key absent from it,
FetchRecord reports a successful read of the empty string, so a missing key
is indistinguishable from a key stored with an empty value. -/
theorem fetchRecord_missing_key_empty (rows : List (String × String))
    (key : String) (h : key ∉ rows.map Prod.fst) :
    FetchRecord rows key = Except.ok "" := by
  have hrows : ∀ kv ∈ rows, kv.1 ≠ key := by
    intro kv hkv heq
    exact h (List.mem_map.2 ⟨kv, hkv, heq⟩)
  have hnone : (FetchRecords rows).lookup key = none :=
    lookup_eq_none_of_keys_ne
      (fetchRecords_keys_ne rows [] key (by simp) hrows)
  unfold FetchRecord mapGet
  rw [hnone]

/-- Claim C9 amended witness: the absent key z reads back as the empty
string. -/
theorem fetchRecord_missing_key_empty_witness :
    FetchRecord [("x", "y")] "z" = Except.ok "" :=
  fetchRecord_missing_key_empty [("x", "y")] "z" (by decide)

/-- Claim C10 counterexample: on a list whose only comms element sits at
position 100000001, the scan result collides with the sentinel and
RemoveComms returns the list unchanged, so the reserved network is not
removed. -/
theorem removeComms_sentinel_cex :
    bigList.length = 100000002 ∧
    commsNetwork ∈ bigList ∧ commsNetwork.netID = "comms" ∧
    RemoveComms bigList = bigList ∧ commsNetwork ∈ RemoveComms bigList := by
  have hrep : (List.replicate 100000001 blankNetwork).length = 100000001 :=
    List.length_replicate _ _
  have h := commsIndexLoop_last (List.replicate 100000001 blankNetwork) []
    commsNetwork 100000001 rfl (fun x hx => absurd hx (List.not_mem_nil x))
  rw [hrep] at h
  have hloop : commsIndexLoop bigList 0 100000001 = 100000001 := h
  have hrem : RemoveComms bigList = bigList := by
    unfold RemoveComms
    rw [hloop]
    simp only [beq_self_eq_true, if_true]
  have hmem : commsNetwork ∈ bigList := by
    unfold bigList
    exact List.mem_append_right _ (List.mem_singleton.2 rfl)
  have hlen2 : bigList.length = 100000002 := by
    unfold bigList
    rw [List.length_append, hrep]
    rfl
  refine ⟨hlen2, hmem, rfl, hrem, ?_⟩
  rw [hrem]
  exact hmem

/-- Claim C10 as amended: for every list of at most 100000001 records,
RemoveComms returns the list unchanged when no element is named comms, and
otherwise removes exactly the last comms element, preserving the order of
the remaining elements; beyond that length the sentinel can collide with the
found position and the comms element is kept. -/
theorem removeComms_removes_last (l : List Network)
    (hlen : l.length ≤ 100000001) :
    ((∀ x ∈ l, x.netID ≠ "comms") → RemoveComms l = l) ∧
    (∀ l₁ c l₂, l = l₁ ++ c :: l₂ → c.netID = "comms" →
      (∀ x ∈ l₂, x.netID ≠ "comms") → RemoveComms l = l₁ ++ l₂) := by
  constructor
  · intro h
    unfold RemoveComms
    rw [commsIndexLoop_no_comms l 0 100000001 h]
    simp
  · intro l₁ c l₂ hl hc h₂
    subst hl
    unfold RemoveComms
    rw [commsIndexLoop_last l₁ l₂ c 100000001 hc h₂]
    have hlt : l₁.length < 100000001 := by
      rw [List.length_append, List.length_cons] at hlen
      omega
    have hne : (l₁.length == 100000001) = false := by
      simp [Nat.ne_of_lt hlt]
    simp only [hne, Bool.false_eq_true, if_false]
    have htake : (l₁ ++ c :: l₂).take l₁.length = l₁ := List.take_left l₁ (c :: l₂)
    have hdrop : (l₁ ++ c :: l₂).drop (l₁.length + 1) = l₂ := by
      have hsplit : l₁ ++ c :: l₂ = (l₁ ++ [c]) ++ l₂ := by simp
      have hlen1 : (l₁ ++ [c]).length = l₁.length + 1 := by simp
      rw [hsplit, ← hlen1]
      exact List.drop_left (l₁ ++ [c]) l₂
    rw [htake, hdrop]

/-- Claim C10 amended witness: the single comms element in the middle of a
three-element list is removed, keeping the other two in order. -/
theorem removeComms_removes_last_witness :
    RemoveComms [plainA, commsNetwork, plainB] = [plainA, plainB] :=
  (removeComms_removes_last [plainA, commsNetwork, plainB] (by decide)).2
    [plainA] commsNetwork [plainB] rfl rfl (by decide)

end Netmaker
